import Mathlib

/-!
Verification development for the session-management core of the Amnezia VPN
client, shallowly embedding `src/client/android/src/org/amnezia/vpn/AmneziaVpnService.kt`.

The embedding translates the service's connection pipeline (`connectToVpn`,
`disconnect`, `reconnect`, `getProtocol`, `saveServerData`,
`parseConfigToJson`, `connectionExceptionHandler`, the
`REGISTER_CLIENT` handler and the state-flow collector of
`launchProtocolStateHandler`) into executable Lean functions over an explicit
service state, recording externally visible actions as an event list.
A separate small-step interleaving model captures the coroutine hand-off
(`connectionJob` / `disconnectionJob` joining) used to sequence overlapping
connect and disconnect operations.
-/

set_option maxRecDepth 4000

namespace AmneziaVpn

/-- Connection states, mirroring `org.amnezia.vpn.protocol.ProtocolState`
as imported in `AmneziaVpnService.kt` (lines 41-46). -/
inductive ProtocolState
  | UNKNOWN
  | CONNECTING
  | CONNECTED
  | DISCONNECTING
  | DISCONNECTED
  | RECONNECTING
  deriving DecidableEq, Repr

/-- The fields of the parsed JSON config that `AmneziaVpnService` reads:
`protocol` (line 391), `description` and `serverIndex` (lines 474-475). -/
structure VpnConfig where
  protocolName : String
  description : Option String
  serverIndex : Option Int
  deriving DecidableEq, Repr

/-- Raw textual VPN config handed to `connectToVpn` (a JSON string in the
source): blank, non-blank but malformed JSON, or well-formed JSON carrying
the fields of `VpnConfig`. -/
inductive RawConfig
  | blank
  | malformed
  | wellFormed (c : VpnConfig)
  deriving DecidableEq, Repr

/-- Externally visible actions of the service: broadcasts to registered
client messengers, invocations of the protocol capability, the permission
activity, and the lifecycle escalation of `stopService`. -/
inductive Event
  | stateChanged (s : ProtocolState) (recipients : List String)
  | errorBroadcast (msg : String) (recipients : List String)
  | resolveProtocol (name : String)
  | startVpn (name : String)
  | stopVpn (name : String)
  | reconnectVpn (name : String)
  | startPermissionActivity
  | armKillTimer
  | stopSelf
  | armStatistics
  deriving DecidableEq, Repr

/-- The mutable fields of `AmneziaVpnService` that the modelled operations
touch (lines 82-101), plus the persisted key-value entries
`PREFS_SERVER_NAME` / `PREFS_SERVER_INDEX` and the registered client names. -/
structure ServiceState where
  protocolState : ProtocolState
  protocol : Option String
  protocolCache : List String
  serverName : Option String
  serverIndex : Int
  prefsServerName : Option String
  prefsServerIndex : Int
  clients : List String
  statisticsRunning : Bool
  deriving DecidableEq, Repr

/-- Assignment to the `protocolState` `MutableStateFlow`. The flow conflates
equal values, so the collector installed by `launchProtocolStateHandler`
(lines 295-333) broadcasts one `STATUS_CHANGED` event to every registered
client exactly when the assigned value differs from the current one. -/
def setProtocolState (s : ServiceState) (v : ProtocolState) :
    ServiceState × List Event :=
  if s.protocolState = v then ({ s with protocolState := v }, [])
  else ({ s with protocolState := v }, [Event.stateChanged v s.clients])

/-- Model of `onError` (lines 450-459): logs the message and broadcasts an `ERROR`
event to every registered client messenger. -/
def onError (s : ServiceState) (msg : String) : List Event :=
  [Event.errorBroadcast msg s.clients]

/-- Model of `parseConfigToJson` (lines 461-471): a blank string yields `null`
silently, malformed JSON broadcasts a format error and yields `null`, and
well-formed JSON yields the parsed object. -/
def parseConfigToJson (s : ServiceState) (raw : RawConfig) :
    Option VpnConfig × List Event :=
  match raw with
  | .blank => (none, [])
  | .malformed => (none, onError s "Invalid VPN config json format")
  | .wellFormed c => (some c, [])

/-- Model of `saveServerData` (lines 473-478): stores the descriptive fields of the
(possibly null) parsed config into the service fields and into the
persisted entries, defaulting to a null name and index -1. -/
def saveServerData (s : ServiceState) (config : Option VpnConfig) : ServiceState :=
  let name := config.bind (fun c => c.description)
  let idx := (config.bind (fun c => c.serverIndex)).getD (-1)
  { s with serverName := name, serverIndex := idx,
           prefsServerName := name, prefsServerIndex := idx }

/-- The closed set of protocol names `getProtocol` can construct
(lines 438-443). -/
def supportedProtocols : List String := ["wireguard", "awg", "openvpn", "cloak"]

/-- Model of `getProtocol` (lines 435-445): returns the cached instance for
`protocolName` if one exists, otherwise constructs one of the four known
implementations and caches it; any other name throws
`IllegalArgumentException`, modelled as the `Except.error` branch. -/
def getProtocol (s : ServiceState) (protocolName : String) :
    Except String (ServiceState × String) :=
  if protocolName ∈ s.protocolCache then .ok (s, protocolName)
  else if protocolName ∈ supportedProtocols then
    .ok ({ s with protocolCache := protocolName :: s.protocolCache }, protocolName)
  else .error ("Protocol '" ++ protocolName ++ "' not found")

/-- The exception kinds distinguished by `connectionExceptionHandler`
(lines 109-119); `uncategorized` stands for any throwable matching none of
the listed classes. -/
inductive VpnError
  | illegalArgument (msg : String)
  | vpnStart (msg : String)
  | vpn (msg : String)
  | json (msg : String)
  | badConfig (msg : String)
  | loadLibrary (msg cause : String)
  | uncategorized
  deriving DecidableEq, Repr

/-- Whether `connectionExceptionHandler` has a dedicated arm for the
exception kind (everything except the `else -> throw e` fallthrough). -/
def isClassified (e : VpnError) : Bool :=
  match e with
  | .uncategorized => false
  | _ => true

/-- Model of `connectionExceptionHandler` (lines 106-121): on any failure escaping a
connection-scope coroutine, forces the state to `DISCONNECTED`, clears the
active protocol reference, then broadcasts an error message for the
classified exception kinds and rethrows anything else. Returns the updated
state, the emitted events, and whether the failure was rethrown. -/
def connectionExceptionHandler (s : ServiceState) (e : VpnError) :
    ServiceState × List Event × Bool :=
  let r := setProtocolState s .DISCONNECTED
  let s2 := { r.1 with protocol := none }
  match e with
  | .illegalArgument msg => (s2, r.2 ++ onError s2 msg, false)
  | .vpnStart msg => (s2, r.2 ++ onError s2 msg, false)
  | .vpn msg => (s2, r.2 ++ onError s2 msg, false)
  | .json msg => (s2, r.2 ++ onError s2 ("VPN config format error: " ++ msg), false)
  | .badConfig msg => (s2, r.2 ++ onError s2 ("VPN config format error: " ++ msg), false)
  | .loadLibrary msg cause => (s2, r.2 ++ onError s2 (msg ++ ". Caused: " ++ cause), false)
  | .uncategorized => (s2, r.2, true)

/-- Recognizer for `ERROR` broadcasts in an event list. -/
def isErrorEvent : Event → Bool
  | .errorBroadcast _ _ => true
  | _ => false

/-- Number of `ERROR` broadcasts in an event list. -/
def countErrors (evs : List Event) : Nat := (evs.filter isErrorEvent).length

/-- Recognizer for protocol `startVpn` invocations. -/
def isStartEvent : Event → Bool
  | .startVpn _ => true
  | _ => false

/-- Recognizer for registry resolutions performed by `getProtocol`. -/
def isResolveEvent : Event → Bool
  | .resolveProtocol _ => true
  | _ => false

/-- The coroutine body launched by `connectToVpn` (lines 387-393): resolves
the protocol instance via `getProtocol` and invokes its `startVpn`
capability; the `IllegalArgumentException` thrown by `getProtocol` for an
unknown name is routed to `connectionExceptionHandler` by the connection
scope. -/
def runConnectionJob (s : ServiceState) (c : VpnConfig) :
    ServiceState × List Event :=
  match getProtocol s c.protocolName with
  | .ok (s1, p) =>
      ({ s1 with protocol := some p },
       [Event.resolveProtocol c.protocolName, Event.startVpn p])
  | .error msg =>
      let r := connectionExceptionHandler s (.illegalArgument msg)
      (r.1, r.2.1)

/-- Model of `connectToVpn` (lines 366-394), composed with the synchronous completion
of the connection coroutine it launches. `permissionGranted` models the
result of `checkPermission` (lines 485-495), which on failure starts
`VpnRequestActivity` and returns false. -/
def connectToVpn (s : ServiceState) (raw : RawConfig) (permissionGranted : Bool) :
    ServiceState × List Event :=
  if s.protocolState = .CONNECTED ∨ s.protocolState = .CONNECTING then (s, [])
  else
    let r1 := setProtocolState s .CONNECTING
    let pr := parseConfigToJson r1.1 raw
    let s2 := saveServerData r1.1 pr.1
    match pr.1 with
    | none =>
        let ev3 := onError s2 "Invalid VPN config"
        let r4 := setProtocolState s2 .DISCONNECTED
        (r4.1, r1.2 ++ pr.2 ++ ev3 ++ r4.2)
    | some c =>
        if permissionGranted then
          let r5 := runConnectionJob s2 c
          (r5.1, r1.2 ++ pr.2 ++ r5.2)
        else
          let r4 := setProtocolState s2 .DISCONNECTED
          (r4.1, r1.2 ++ pr.2 ++ [Event.startPermissionActivity] ++ r4.2)

/-- Effects of `stopService` (lines 281-290): arms the bounded kill timer
(`STOP_SERVICE_TIMEOUT`, forced process termination when it fires) and
requests a graceful stop of the service. -/
def stopServiceEffects : List Event := [Event.armKillTimer, Event.stopSelf]

/-- Model of `disconnect` (lines 396-420), composed with the synchronous completion
of the disconnection coroutine. `reachesDisconnectedInTime` models whether
the state flow reaches `DISCONNECTED` within `DISCONNECT_TIMEOUT` (5000 ms);
on timeout the coroutine logs a warning and calls `stopService`, without
retrying `stopVpn`. -/
def disconnect (s : ServiceState) (reachesDisconnectedInTime : Bool) :
    ServiceState × List Event :=
  if s.protocolState = .UNKNOWN ∨ s.protocolState = .DISCONNECTED ∨
      s.protocolState = .DISCONNECTING then (s, [])
  else
    let r1 := setProtocolState s .DISCONNECTING
    let stopEvs := match r1.1.protocol with
      | some p => [Event.stopVpn p]
      | none => []
    let s2 := { r1.1 with protocol := none }
    if reachesDisconnectedInTime then (s2, r1.2 ++ stopEvs)
    else (s2, r1.2 ++ stopEvs ++ stopServiceEffects)

/-- Model of `reconnect` (lines 422-433): a no-op unless the state is `CONNECTED`;
otherwise moves the state to `RECONNECTING` and invokes the `reconnectVpn`
capability of the active protocol instance (the `protocol` field), without
any `getProtocol` resolution. -/
def reconnect (s : ServiceState) : ServiceState × List Event :=
  if s.protocolState = .CONNECTED then
    let r1 := setProtocolState s .RECONNECTING
    match r1.1.protocol with
    | some p => (r1.1, r1.2 ++ [Event.reconnectVpn p])
    | none => (r1.1, r1.2)
  else (s, [])

/-- In `onCreate` (line 214) the service installs `::reconnect` as the connectivity-change
callback: `networkState = NetworkState(this, ::reconnect)`. -/
def onNetworkChange (s : ServiceState) : ServiceState × List Event := reconnect s

/-- The name under which the Amnezia activity registers its messenger
(`ACTIVITY_MESSENGER_NAME`, declared outside the provided sources; only its
equality with registered client names matters here). -/
def activityMessengerName : String := "AmneziaActivity"

/-- Model of `launchSendingStatistics` (lines 335-349): the entire body of the
function is commented out in the source, so invoking it changes nothing and
starts no `STATISTICS_UPDATE` sending loop. -/
def launchSendingStatistics (s : ServiceState) : ServiceState := s

/-- The `Action.REGISTER_CLIENT` arm of `actionMessageHandler`
(lines 129-135): registers the messenger under `clientName` and, when the
name is the activity messenger name and the state is `CONNECTED`, invokes
`launchSendingStatistics`; the `armStatistics` event records that
invocation. -/
def registerClient (s : ServiceState) (clientName : String) :
    ServiceState × List Event :=
  let s1 := { s with clients := s.clients ++ [clientName] }
  if clientName = activityMessengerName ∧ s1.protocolState = .CONNECTED then
    (launchSendingStatistics s1, [Event.armStatistics])
  else (s1, [])

/-! ### Network-listener binding performed by the state collector

`launchProtocolStateHandler` (lines 295-333) collects every change of the
`protocolState` flow and binds or unbinds the connectivity listener. -/

/-- The listener-binding effect of one collected state change
(lines 300-321): `CONNECTED` binds the listener, `DISCONNECTED` and
`DISCONNECTING` unbind it, and the remaining arms leave it unchanged (the
`RECONNECTING` arm only stops statistics; `CONNECTING` and `UNKNOWN` do
nothing). -/
def networkListenerAfter (bound : Bool) (s : ProtocolState) : Bool :=
  match s with
  | .CONNECTED => true
  | .DISCONNECTED => false
  | .DISCONNECTING => false
  | _ => bound

/-- Modelled from the spec: the §4.1 transition table of the connection
state machine. The table is needed because the protocol implementations
that drive `protocolState` to `CONNECTED` and `DISCONNECTED` are outside
the provided sources; it lists exactly the transitions of §4.1. -/
def specTransition : ProtocolState → ProtocolState → Bool
  | .UNKNOWN, .CONNECTING => true
  | .DISCONNECTED, .CONNECTING => true
  | .CONNECTING, .CONNECTED => true
  | .RECONNECTING, .CONNECTED => true
  | .CONNECTING, .DISCONNECTED => true
  | .CONNECTED, .DISCONNECTED => true
  | .RECONNECTING, .DISCONNECTED => true
  | .CONNECTED, .DISCONNECTING => true
  | .CONNECTING, .DISCONNECTING => true
  | .RECONNECTING, .DISCONNECTING => true
  | .DISCONNECTING, .DISCONNECTED => true
  | .CONNECTED, .RECONNECTING => true
  | _, _ => false

/-- Configurations `(state, listenerBound)` reachable by the state collector
along state sequences legal per the §4.1 table, starting from `UNKNOWN`
with the listener unbound (the collector drops the initial `UNKNOWN`
value, so only subsequent changes update the binding). -/
inductive ListenerReachable : ProtocolState → Bool → Prop
  | init : ListenerReachable .UNKNOWN false
  | step {s b s'} : ListenerReachable s b → specTransition s s' = true →
      ListenerReachable s' (networkListenerAfter b s')

/-! ### Interleaving model of the connect / disconnect coroutine hand-off

`connectToVpn` (lines 387-393) and `disconnect` (lines 404-419) launch
their work on `connectionScope` and sequence overlapping operations by
joining the job handle of the opposite class (`disconnectionJob?.join()` /
`connectionJob?.join()`) and then nulling that handle. The model below is a
small-step interleaving semantics over the two `@MainThread` entry points
and the launched coroutine bodies, with the `connectionJob` and
`disconnectionJob` fields modelled explicitly so that the handle reads,
joins and null assignments happen at the same program points as in the
source. -/

/-- An operation issued on the main thread. -/
inductive MainOp
  | connectOp
  | disconnectOp
  deriving DecidableEq, Repr

/-- The class of a launched coroutine. -/
inductive JobClass
  | connectCls
  | disconnectCls
  deriving DecidableEq, Repr

/-- One launched coroutine. Program counters for a connect-class job
(body at lines 388-392): 0 = about to join `disconnectionJob`, 1 = about to
null `disconnectionJob`, 2 = about to resolve via `getProtocol`, 3 = about
to enter `startVpn`, 4 = inside `startVpn` (mid-start), 5 = returned.
For a disconnect-class job (body at lines 405-418): 0 = about to join
`connectionJob`, 1 = about to null `connectionJob`, 2 = about to enter
`stopVpn`, 3 = inside `stopVpn` (mid-stop), 4 = awaiting the bounded
`DISCONNECTED` confirmation, 5 = returned. `waiting` models a join in
progress: `none` before the handle is read, `some t` after the handle value
`t` has been captured. -/
structure JobState where
  cls : JobClass
  pc : Nat
  waiting : Option (Option Nat)
  deriving DecidableEq, Repr

/-- Whether a connect-class job is currently inside `startVpn`. -/
def midStart (j : JobState) : Bool := j.cls = JobClass.connectCls ∧ j.pc = 4

/-- Whether a disconnect-class job is currently inside `stopVpn`. -/
def midStop (j : JobState) : Bool := j.cls = JobClass.disconnectCls ∧ j.pc = 3

/-- Global state of the interleaving model: the current value of the
`protocolState` flow, all launched jobs (indexed by launch order), the
`connectionJob` and `disconnectionJob` handle fields (holding job indices),
and the remaining main-thread script. -/
structure Sys where
  prot : ProtocolState
  jobs : List JobState
  connRef : Option Nat
  discRef : Option Nat
  script : List MainOp
  deriving DecidableEq, Repr

/-- A scheduling choice: run the next main-thread entry point, let the
environment (a protocol implementation) publish a protocol state, or run
one step of the coroutine with the given index. -/
inductive Choice
  | mainStep
  | envStep (s : ProtocolState)
  | jobStep (i : Nat)
  deriving DecidableEq, Repr

/-- Whether the job with index `t` has returned. -/
def jobDoneAt (jobs : List JobState) (t : Nat) : Bool :=
  match jobs.get? t with
  | some j => 5 ≤ j.pc
  | none => false

/-- The main-thread entry points: `connectToVpn` checks its idempotence
guard (line 368), sets the state to `CONNECTING`, launches the connect
coroutine and assigns `connectionJob` (line 387); `disconnect` checks its
guard (line 398), sets the state to `DISCONNECTING`, launches the
disconnect coroutine and assigns `disconnectionJob` (line 404). -/
def stepMain (sys : Sys) : Sys :=
  match sys.script with
  | [] => sys
  | op :: rest =>
    match op with
    | .connectOp =>
        if sys.prot = .CONNECTED ∨ sys.prot = .CONNECTING then
          { sys with script := rest }
        else
          { sys with prot := .CONNECTING,
                     jobs := sys.jobs ++ [⟨.connectCls, 0, none⟩],
                     connRef := some sys.jobs.length,
                     script := rest }
    | .disconnectOp =>
        if sys.prot = .UNKNOWN ∨ sys.prot = .DISCONNECTED ∨
            sys.prot = .DISCONNECTING then
          { sys with script := rest }
        else
          { sys with prot := .DISCONNECTING,
                     jobs := sys.jobs ++ [⟨.disconnectCls, 0, none⟩],
                     discRef := some sys.jobs.length,
                     script := rest }

/-- One step of the coroutine with index `i`. At pc 0 the job first reads
the opposite-class handle field (capturing its value) and then completes
the join once the captured job has returned (a null handle joins nothing);
at pc 1 it nulls the opposite-class handle field, exactly as the coroutine
bodies do at lines 389 and 406; later pcs advance through the body, and a
returned job no longer steps. -/
def stepJob (sys : Sys) (i : Nat) : Sys :=
  match sys.jobs.get? i with
  | none => sys
  | some j =>
    match j.pc, j.waiting with
    | 0, none =>
        let target := match j.cls with
          | .connectCls => sys.discRef
          | .disconnectCls => sys.connRef
        { sys with jobs := sys.jobs.set i { j with waiting := some target } }
    | 0, some none =>
        { sys with jobs := sys.jobs.set i { j with pc := 1, waiting := none } }
    | 0, some (some t) =>
        if jobDoneAt sys.jobs t then
          { sys with jobs := sys.jobs.set i { j with pc := 1, waiting := none } }
        else sys
    | 1, _ =>
        match j.cls with
        | .connectCls =>
            { sys with discRef := none, jobs := sys.jobs.set i { j with pc := 2 } }
        | .disconnectCls =>
            { sys with connRef := none, jobs := sys.jobs.set i { j with pc := 2 } }
    | p + 2, _ =>
        if p + 2 < 5 then { sys with jobs := sys.jobs.set i { j with pc := p + 3 } }
        else sys

/-- The environment publishing a protocol state on the flow (the protocol
implementations own such writes; the states they publish are not
restricted here). -/
def stepEnv (sys : Sys) (s : ProtocolState) : Sys := { sys with prot := s }

/-- One scheduling step. -/
def step (sys : Sys) : Choice → Sys
  | .mainStep => stepMain sys
  | .envStep s => stepEnv sys s
  | .jobStep i => stepJob sys i

/-- Initial system: state `UNKNOWN`, no jobs, null handles, and the given
script of main-thread operations still to be issued. -/
def initSys (script : List MainOp) : Sys :=
  ⟨.UNKNOWN, [], none, none, script⟩

/-- Run a schedule against a script. -/
def run (script : List MainOp) (cs : List Choice) : Sys :=
  cs.foldl step (initSys script)

/-- A coroutine step on an index with no job is a no-op. -/
theorem stepJob_of_get_none {sys : Sys} {i : Nat}
    (h : sys.jobs.get? i = none) : stepJob sys i = sys := by
  unfold stepJob
  rw [h]

/-- Inductive invariant of the `connect`-then-`disconnect` scenario
(script `[connectOp, disconnectOp]`): the reachable system shapes, carrying
the key sequencing fact that the disconnect coroutine passes its join of
`connectionJob` only once the connect coroutine has returned. -/
def InvA (sys : Sys) : Prop :=
  (sys.jobs = [] ∧ sys.connRef = none ∧ sys.discRef = none ∧
    (sys.script = [MainOp.connectOp, MainOp.disconnectOp] ∨
      sys.script = [MainOp.disconnectOp] ∨ sys.script = [])) ∨
  (∃ j0, sys.jobs = [j0] ∧ j0.cls = JobClass.connectCls ∧ j0.pc ≤ 5 ∧
    (j0.waiting = none ∨ j0.waiting = some none) ∧
    sys.connRef = some 0 ∧ sys.discRef = none ∧
    (sys.script = [MainOp.disconnectOp] ∨ sys.script = [])) ∨
  (∃ j0, sys.jobs = [j0] ∧ j0.cls = JobClass.disconnectCls ∧ j0.pc ≤ 5 ∧
    (j0.waiting = none ∨ j0.waiting = some none) ∧
    sys.connRef = none ∧ sys.discRef = some 0 ∧ sys.script = []) ∨
  (∃ j0 j1, sys.jobs = [j0, j1] ∧ j0.cls = JobClass.connectCls ∧
    j1.cls = JobClass.disconnectCls ∧ j0.pc ≤ 5 ∧ j1.pc ≤ 5 ∧
    sys.script = [] ∧ (sys.discRef = some 1 ∨ sys.discRef = none) ∧
    (j0.waiting = none ∨ j0.waiting = some none ∨ j0.waiting = some (some 1)) ∧
    (j1.waiting = none ∨ j1.waiting = some (some 0)) ∧
    (j1.pc = 0 → sys.connRef = some 0) ∧
    (1 ≤ j1.pc → j0.pc = 5))

theorem invA_step (sys : Sys) (c : Choice) (h : InvA sys) : InvA (step sys c) := by
  obtain ⟨prot, jobs, connRef, discRef, script⟩ := sys
  cases c with
  | envStep s => exact h
  | mainStep =>
      rcases h with ⟨hj, hc, hd, hs⟩ |
        ⟨j0, hj, hcls, hpc, hw, hc, hd, hs⟩ |
        ⟨j0, hj, hcls, hpc, hw, hc, hd, hs⟩ |
        ⟨j0, j1, hj, hc0, hc1, hp0, hp1, hs, hd, hw0, hw1, hcr, hkey⟩
      · subst hj hc hd
        rcases hs with hs | hs | hs <;> subst hs
        · by_cases hp : prot = ProtocolState.CONNECTED ∨ prot = ProtocolState.CONNECTING
          · simp only [step, stepMain, if_pos hp]
            exact Or.inl ⟨rfl, rfl, rfl, Or.inr (Or.inl rfl)⟩
          · simp only [step, stepMain, if_neg hp]
            exact Or.inr (Or.inl ⟨⟨JobClass.connectCls, 0, none⟩, rfl, rfl,
              by decide, Or.inl rfl, rfl, rfl, Or.inl rfl⟩)
        · by_cases hp : prot = ProtocolState.UNKNOWN ∨ prot = ProtocolState.DISCONNECTED ∨
              prot = ProtocolState.DISCONNECTING
          · simp only [step, stepMain, if_pos hp]
            exact Or.inl ⟨rfl, rfl, rfl, Or.inr (Or.inr rfl)⟩
          · simp only [step, stepMain, if_neg hp]
            exact Or.inr (Or.inr (Or.inl ⟨⟨JobClass.disconnectCls, 0, none⟩, rfl, rfl,
              by decide, Or.inl rfl, rfl, rfl, rfl⟩))
        · exact Or.inl ⟨rfl, rfl, rfl, Or.inr (Or.inr rfl)⟩
      · subst hj hc hd
        rcases hs with hs | hs <;> subst hs
        · by_cases hp : prot = ProtocolState.UNKNOWN ∨ prot = ProtocolState.DISCONNECTED ∨
              prot = ProtocolState.DISCONNECTING
          · simp only [step, stepMain, if_pos hp]
            exact Or.inr (Or.inl ⟨j0, rfl, hcls, hpc, hw, rfl, rfl, Or.inr rfl⟩)
          · simp only [step, stepMain, if_neg hp]
            refine Or.inr (Or.inr (Or.inr ⟨j0, ⟨JobClass.disconnectCls, 0, none⟩, rfl,
              hcls, rfl, hpc, by decide, rfl, Or.inl rfl, ?_, Or.inl rfl,
              fun _ => rfl, fun h1 => absurd h1 (by decide)⟩))
            rcases hw with hw | hw
            · exact Or.inl hw
            · exact Or.inr (Or.inl hw)
        · exact Or.inr (Or.inl ⟨j0, rfl, hcls, hpc, hw, rfl, rfl, Or.inr rfl⟩)
      · subst hj hc hd hs
        exact Or.inr (Or.inr (Or.inl ⟨j0, rfl, hcls, hpc, hw, rfl, rfl, rfl⟩))
      · subst hj hs
        exact Or.inr (Or.inr (Or.inr ⟨j0, j1, rfl, hc0, hc1, hp0, hp1, rfl, hd,
          hw0, hw1, hcr, hkey⟩))
  | jobStep i =>
      rcases h with ⟨hj, hc, hd, hs⟩ |
        ⟨j0, hj, hcls, hpc, hw, hc, hd, hs⟩ |
        ⟨j0, hj, hcls, hpc, hw, hc, hd, hs⟩ |
        ⟨j0, j1, hj, hc0, hc1, hp0, hp1, hs, hd, hw0, hw1, hcr, hkey⟩
      · subst hj hc hd
        exact Or.inl ⟨rfl, rfl, rfl, hs⟩
      · obtain ⟨c0, p0, w0⟩ := j0
        replace hcls : c0 = JobClass.connectCls := hcls
        replace hpc : p0 ≤ 5 := hpc
        replace hw : w0 = none ∨ w0 = some none := hw
        subst hj hc hd hcls
        rcases i with _ | i
        · rcases p0 with _ | _ | _ | _ | _ | p
          · rcases hw with rfl | rfl
            · exact Or.inr (Or.inl ⟨⟨JobClass.connectCls, 0, some none⟩, rfl, rfl,
                by decide, Or.inr rfl, rfl, rfl, hs⟩)
            · exact Or.inr (Or.inl ⟨⟨JobClass.connectCls, 1, none⟩, rfl, rfl,
                by decide, Or.inl rfl, rfl, rfl, hs⟩)
          · exact Or.inr (Or.inl ⟨⟨JobClass.connectCls, 2, w0⟩, rfl, rfl,
              (show (2:Nat) ≤ 5 by decide), hw, rfl, rfl, hs⟩)
          · exact Or.inr (Or.inl ⟨⟨JobClass.connectCls, 3, w0⟩, rfl, rfl,
              (show (3:Nat) ≤ 5 by decide), hw, rfl, rfl, hs⟩)
          · exact Or.inr (Or.inl ⟨⟨JobClass.connectCls, 4, w0⟩, rfl, rfl,
              (show (4:Nat) ≤ 5 by decide), hw, rfl, rfl, hs⟩)
          · exact Or.inr (Or.inl ⟨⟨JobClass.connectCls, 5, w0⟩, rfl, rfl,
              (show (5:Nat) ≤ 5 by decide), hw, rfl, rfl, hs⟩)
          · exact Or.inr (Or.inl ⟨⟨JobClass.connectCls, p + 5, w0⟩, rfl, rfl,
              hpc, hw, rfl, rfl, hs⟩)
        · exact Or.inr (Or.inl ⟨⟨JobClass.connectCls, p0, w0⟩, rfl, rfl, hpc, hw,
            rfl, rfl, hs⟩)
      · obtain ⟨c0, p0, w0⟩ := j0
        replace hcls : c0 = JobClass.disconnectCls := hcls
        replace hpc : p0 ≤ 5 := hpc
        replace hw : w0 = none ∨ w0 = some none := hw
        subst hj hc hd hcls hs
        rcases i with _ | i
        · rcases p0 with _ | _ | _ | _ | _ | p
          · rcases hw with rfl | rfl
            · exact Or.inr (Or.inr (Or.inl ⟨⟨JobClass.disconnectCls, 0, some none⟩,
                rfl, rfl, by decide, Or.inr rfl, rfl, rfl, rfl⟩))
            · exact Or.inr (Or.inr (Or.inl ⟨⟨JobClass.disconnectCls, 1, none⟩,
                rfl, rfl, by decide, Or.inl rfl, rfl, rfl, rfl⟩))
          · exact Or.inr (Or.inr (Or.inl ⟨⟨JobClass.disconnectCls, 2, w0⟩,
              rfl, rfl, (show (2:Nat) ≤ 5 by decide), hw, rfl, rfl, rfl⟩))
          · exact Or.inr (Or.inr (Or.inl ⟨⟨JobClass.disconnectCls, 3, w0⟩,
              rfl, rfl, (show (3:Nat) ≤ 5 by decide), hw, rfl, rfl, rfl⟩))
          · exact Or.inr (Or.inr (Or.inl ⟨⟨JobClass.disconnectCls, 4, w0⟩,
              rfl, rfl, (show (4:Nat) ≤ 5 by decide), hw, rfl, rfl, rfl⟩))
          · exact Or.inr (Or.inr (Or.inl ⟨⟨JobClass.disconnectCls, 5, w0⟩,
              rfl, rfl, (show (5:Nat) ≤ 5 by decide), hw, rfl, rfl, rfl⟩))
          · exact Or.inr (Or.inr (Or.inl ⟨⟨JobClass.disconnectCls, p + 5, w0⟩,
              rfl, rfl, hpc, hw, rfl, rfl, rfl⟩))
        · exact Or.inr (Or.inr (Or.inl ⟨⟨JobClass.disconnectCls, p0, w0⟩, rfl, rfl,
            hpc, hw, rfl, rfl, rfl⟩))
      · obtain ⟨c0, p0, w0⟩ := j0
        obtain ⟨c1, p1, w1⟩ := j1
        replace hc0 : c0 = JobClass.connectCls := hc0
        replace hc1 : c1 = JobClass.disconnectCls := hc1
        replace hp0 : p0 ≤ 5 := hp0
        replace hp1 : p1 ≤ 5 := hp1
        replace hw0 : w0 = none ∨ w0 = some none ∨ w0 = some (some 1) := hw0
        replace hw1 : w1 = none ∨ w1 = some (some 0) := hw1
        replace hcr : p1 = 0 → connRef = some 0 := hcr
        replace hkey : 1 ≤ p1 → p0 = 5 := hkey
        subst hj hc0 hc1 hs
        rcases i with _ | _ | i
        · rcases p0 with _ | _ | _ | _ | _ | p
          · rcases hw0 with rfl | rfl | rfl
            · rcases hd with hd | hd <;> subst hd
              · exact Or.inr (Or.inr (Or.inr ⟨⟨JobClass.connectCls, 0, some (some 1)⟩,
                  ⟨JobClass.disconnectCls, p1, w1⟩, rfl, rfl, rfl, by decide, hp1,
                  rfl, Or.inl rfl, Or.inr (Or.inr rfl), hw1, hcr, hkey⟩))
              · exact Or.inr (Or.inr (Or.inr ⟨⟨JobClass.connectCls, 0, some none⟩,
                  ⟨JobClass.disconnectCls, p1, w1⟩, rfl, rfl, rfl, by decide, hp1,
                  rfl, Or.inr rfl, Or.inr (Or.inl rfl), hw1, hcr, hkey⟩))
            · exact Or.inr (Or.inr (Or.inr ⟨⟨JobClass.connectCls, 1, none⟩,
                ⟨JobClass.disconnectCls, p1, w1⟩, rfl, rfl, rfl, by decide, hp1,
                rfl, hd, Or.inl rfl, hw1, hcr,
                fun h1 => absurd (hkey h1) (by decide)⟩))
            · by_cases hdone : 5 ≤ p1
              · exact absurd (hkey (by omega)) (by decide)
              · have hjd : jobDoneAt [⟨JobClass.connectCls, 0, some (some 1)⟩,
                    ⟨JobClass.disconnectCls, p1, w1⟩] 1 = false := decide_eq_false hdone
                simp only [step, stepJob, List.get?, hjd, Bool.false_eq_true, if_false]
                exact Or.inr (Or.inr (Or.inr ⟨⟨JobClass.connectCls, 0, some (some 1)⟩,
                  ⟨JobClass.disconnectCls, p1, w1⟩, rfl, rfl, rfl, by decide, hp1,
                  rfl, hd, Or.inr (Or.inr rfl), hw1, hcr, hkey⟩))
          · exact Or.inr (Or.inr (Or.inr ⟨⟨JobClass.connectCls, 2, w0⟩,
              ⟨JobClass.disconnectCls, p1, w1⟩, rfl, rfl, rfl,
              (show (2:Nat) ≤ 5 by decide), hp1,
              rfl, Or.inr rfl, hw0, hw1, hcr,
              fun h1 => absurd (hkey h1) (by decide)⟩))
          · exact Or.inr (Or.inr (Or.inr ⟨⟨JobClass.connectCls, 3, w0⟩,
              ⟨JobClass.disconnectCls, p1, w1⟩, rfl, rfl, rfl,
              (show (3:Nat) ≤ 5 by decide), hp1,
              rfl, hd, hw0, hw1, hcr, fun h1 => absurd (hkey h1) (by decide)⟩))
          · exact Or.inr (Or.inr (Or.inr ⟨⟨JobClass.connectCls, 4, w0⟩,
              ⟨JobClass.disconnectCls, p1, w1⟩, rfl, rfl, rfl,
              (show (4:Nat) ≤ 5 by decide), hp1,
              rfl, hd, hw0, hw1, hcr, fun h1 => absurd (hkey h1) (by decide)⟩))
          · exact Or.inr (Or.inr (Or.inr ⟨⟨JobClass.connectCls, 5, w0⟩,
              ⟨JobClass.disconnectCls, p1, w1⟩, rfl, rfl, rfl,
              (show (5:Nat) ≤ 5 by decide), hp1,
              rfl, hd, hw0, hw1, hcr, fun _ => rfl⟩))
          · exact Or.inr (Or.inr (Or.inr ⟨⟨JobClass.connectCls, p + 5, w0⟩,
              ⟨JobClass.disconnectCls, p1, w1⟩, rfl, rfl, rfl, hp0, hp1,
              rfl, hd, hw0, hw1, hcr, hkey⟩))
        · rcases p1 with _ | _ | _ | _ | _ | p
          · rcases hw1 with rfl | rfl
            · rw [hcr rfl]
              exact Or.inr (Or.inr (Or.inr ⟨⟨JobClass.connectCls, p0, w0⟩,
                ⟨JobClass.disconnectCls, 0, some (some 0)⟩, rfl, rfl, rfl, hp0,
                by decide, rfl, hd, hw0, Or.inr rfl, fun _ => rfl,
                fun h1 => absurd h1 (by decide)⟩))
            · by_cases hdone : 5 ≤ p0
              · have hp05 : p0 = 5 := le_antisymm hp0 hdone
                subst hp05
                exact Or.inr (Or.inr (Or.inr ⟨⟨JobClass.connectCls, 5, w0⟩,
                  ⟨JobClass.disconnectCls, 1, none⟩, rfl, rfl, rfl,
                  (show (5:Nat) ≤ 5 by decide), by decide, rfl, hd, hw0, Or.inl rfl,
                  fun h1 => absurd h1 (by decide), fun _ => rfl⟩))
              · have hjd : jobDoneAt [⟨JobClass.connectCls, p0, w0⟩,
                    ⟨JobClass.disconnectCls, 0, some (some 0)⟩] 0 = false :=
                  decide_eq_false hdone
                simp only [step, stepJob, List.get?, hjd, Bool.false_eq_true, if_false]
                exact Or.inr (Or.inr (Or.inr ⟨⟨JobClass.connectCls, p0, w0⟩,
                  ⟨JobClass.disconnectCls, 0, some (some 0)⟩, rfl, rfl, rfl, hp0,
                  by decide, rfl, hd, hw0, Or.inr rfl, hcr,
                  fun h1 => absurd h1 (by decide)⟩))
          · exact Or.inr (Or.inr (Or.inr ⟨⟨JobClass.connectCls, p0, w0⟩,
              ⟨JobClass.disconnectCls, 2, w1⟩, rfl, rfl, rfl, hp0,
              (show (2:Nat) ≤ 5 by decide), rfl, hd, hw0, hw1,
              fun h1 => absurd (show (2:Nat) = 0 from h1) (by decide),
              fun _ => hkey (by decide)⟩))
          · exact Or.inr (Or.inr (Or.inr ⟨⟨JobClass.connectCls, p0, w0⟩,
              ⟨JobClass.disconnectCls, 3, w1⟩, rfl, rfl, rfl, hp0,
              (show (3:Nat) ≤ 5 by decide), rfl, hd, hw0, hw1,
              fun h1 => absurd (show (3:Nat) = 0 from h1) (by decide),
              fun _ => hkey (by decide)⟩))
          · exact Or.inr (Or.inr (Or.inr ⟨⟨JobClass.connectCls, p0, w0⟩,
              ⟨JobClass.disconnectCls, 4, w1⟩, rfl, rfl, rfl, hp0,
              (show (4:Nat) ≤ 5 by decide), rfl, hd, hw0, hw1,
              fun h1 => absurd (show (4:Nat) = 0 from h1) (by decide),
              fun _ => hkey (by decide)⟩))
          · exact Or.inr (Or.inr (Or.inr ⟨⟨JobClass.connectCls, p0, w0⟩,
              ⟨JobClass.disconnectCls, 5, w1⟩, rfl, rfl, rfl, hp0,
              (show (5:Nat) ≤ 5 by decide), rfl, hd, hw0, hw1,
              fun h1 => absurd (show (5:Nat) = 0 from h1) (by decide),
              fun _ => hkey (by decide)⟩))
          · exact Or.inr (Or.inr (Or.inr ⟨⟨JobClass.connectCls, p0, w0⟩,
              ⟨JobClass.disconnectCls, p + 5, w1⟩, rfl, rfl, rfl, hp0, hp1,
              rfl, hd, hw0, hw1, hcr, hkey⟩))
        · exact Or.inr (Or.inr (Or.inr ⟨⟨JobClass.connectCls, p0, w0⟩,
            ⟨JobClass.disconnectCls, p1, w1⟩, rfl, rfl, rfl, hp0, hp1, rfl, hd,
            hw0, hw1, hcr, hkey⟩))

/-- Invariant `InvA` holds along every schedule of the connect-then-disconnect
script. -/
theorem invA_run (cs : List Choice) :
    InvA (run [MainOp.connectOp, MainOp.disconnectOp] cs) := by
  suffices h : ∀ s : Sys, InvA s → InvA (cs.foldl step s) from
    h _ (Or.inl ⟨rfl, rfl, rfl, Or.inl rfl⟩)
  induction cs with
  | nil => exact fun s hs => hs
  | cons c cs ih => exact fun s hs => ih _ (invA_step s c hs)

/-- Inductive invariant of the `disconnect`-then-`connect` scenario
(script `[disconnectOp, connectOp]`): mirror image of `InvA`, carrying the
key fact that the connect coroutine passes its join of `disconnectionJob`
only once the disconnect coroutine has returned. -/
def InvB (sys : Sys) : Prop :=
  (sys.jobs = [] ∧ sys.connRef = none ∧ sys.discRef = none ∧
    (sys.script = [MainOp.disconnectOp, MainOp.connectOp] ∨
      sys.script = [MainOp.connectOp] ∨ sys.script = [])) ∨
  (∃ j0, sys.jobs = [j0] ∧ j0.cls = JobClass.disconnectCls ∧ j0.pc ≤ 5 ∧
    (j0.waiting = none ∨ j0.waiting = some none) ∧
    sys.connRef = none ∧ sys.discRef = some 0 ∧
    (sys.script = [MainOp.connectOp] ∨ sys.script = [])) ∨
  (∃ j0, sys.jobs = [j0] ∧ j0.cls = JobClass.connectCls ∧ j0.pc ≤ 5 ∧
    (j0.waiting = none ∨ j0.waiting = some none) ∧
    sys.connRef = some 0 ∧ sys.discRef = none ∧ sys.script = []) ∨
  (∃ j0 j1, sys.jobs = [j0, j1] ∧ j0.cls = JobClass.disconnectCls ∧
    j1.cls = JobClass.connectCls ∧ j0.pc ≤ 5 ∧ j1.pc ≤ 5 ∧
    sys.script = [] ∧ (sys.connRef = some 1 ∨ sys.connRef = none) ∧
    (j0.waiting = none ∨ j0.waiting = some none ∨ j0.waiting = some (some 1)) ∧
    (j1.waiting = none ∨ j1.waiting = some (some 0)) ∧
    (j1.pc = 0 → sys.discRef = some 0) ∧
    (1 ≤ j1.pc → j0.pc = 5))

theorem invB_step (sys : Sys) (c : Choice) (h : InvB sys) : InvB (step sys c) := by
  obtain ⟨prot, jobs, connRef, discRef, script⟩ := sys
  cases c with
  | envStep s => exact h
  | mainStep =>
      rcases h with ⟨hj, hc, hd, hs⟩ |
        ⟨j0, hj, hcls, hpc, hw, hc, hd, hs⟩ |
        ⟨j0, hj, hcls, hpc, hw, hc, hd, hs⟩ |
        ⟨j0, j1, hj, hc0, hc1, hp0, hp1, hs, hc, hw0, hw1, hcr, hkey⟩
      · subst hj hc hd
        rcases hs with hs | hs | hs <;> subst hs
        · by_cases hp : prot = ProtocolState.UNKNOWN ∨ prot = ProtocolState.DISCONNECTED ∨
              prot = ProtocolState.DISCONNECTING
          · simp only [step, stepMain, if_pos hp]
            exact Or.inl ⟨rfl, rfl, rfl, Or.inr (Or.inl rfl)⟩
          · simp only [step, stepMain, if_neg hp]
            exact Or.inr (Or.inl ⟨⟨JobClass.disconnectCls, 0, none⟩, rfl, rfl,
              by decide, Or.inl rfl, rfl, rfl, Or.inl rfl⟩)
        · by_cases hp : prot = ProtocolState.CONNECTED ∨ prot = ProtocolState.CONNECTING
          · simp only [step, stepMain, if_pos hp]
            exact Or.inl ⟨rfl, rfl, rfl, Or.inr (Or.inr rfl)⟩
          · simp only [step, stepMain, if_neg hp]
            exact Or.inr (Or.inr (Or.inl ⟨⟨JobClass.connectCls, 0, none⟩, rfl, rfl,
              by decide, Or.inl rfl, rfl, rfl, rfl⟩))
        · exact Or.inl ⟨rfl, rfl, rfl, Or.inr (Or.inr rfl)⟩
      · subst hj hc hd
        rcases hs with hs | hs <;> subst hs
        · by_cases hp : prot = ProtocolState.CONNECTED ∨ prot = ProtocolState.CONNECTING
          · simp only [step, stepMain, if_pos hp]
            exact Or.inr (Or.inl ⟨j0, rfl, hcls, hpc, hw, rfl, rfl, Or.inr rfl⟩)
          · simp only [step, stepMain, if_neg hp]
            refine Or.inr (Or.inr (Or.inr ⟨j0, ⟨JobClass.connectCls, 0, none⟩, rfl,
              hcls, rfl, hpc, by decide, rfl, Or.inl rfl, ?_, Or.inl rfl,
              fun _ => rfl, fun h1 => absurd h1 (by decide)⟩))
            rcases hw with hw | hw
            · exact Or.inl hw
            · exact Or.inr (Or.inl hw)
        · exact Or.inr (Or.inl ⟨j0, rfl, hcls, hpc, hw, rfl, rfl, Or.inr rfl⟩)
      · subst hj hc hd hs
        exact Or.inr (Or.inr (Or.inl ⟨j0, rfl, hcls, hpc, hw, rfl, rfl, rfl⟩))
      · subst hj hs
        exact Or.inr (Or.inr (Or.inr ⟨j0, j1, rfl, hc0, hc1, hp0, hp1, rfl, hc,
          hw0, hw1, hcr, hkey⟩))
  | jobStep i =>
      rcases h with ⟨hj, hc, hd, hs⟩ |
        ⟨j0, hj, hcls, hpc, hw, hc, hd, hs⟩ |
        ⟨j0, hj, hcls, hpc, hw, hc, hd, hs⟩ |
        ⟨j0, j1, hj, hc0, hc1, hp0, hp1, hs, hc, hw0, hw1, hcr, hkey⟩
      · subst hj hc hd
        exact Or.inl ⟨rfl, rfl, rfl, hs⟩
      · obtain ⟨c0, p0, w0⟩ := j0
        replace hcls : c0 = JobClass.disconnectCls := hcls
        replace hpc : p0 ≤ 5 := hpc
        replace hw : w0 = none ∨ w0 = some none := hw
        subst hj hc hd hcls
        rcases i with _ | i
        · rcases p0 with _ | _ | _ | _ | _ | p
          · rcases hw with rfl | rfl
            · exact Or.inr (Or.inl ⟨⟨JobClass.disconnectCls, 0, some none⟩, rfl, rfl,
                by decide, Or.inr rfl, rfl, rfl, hs⟩)
            · exact Or.inr (Or.inl ⟨⟨JobClass.disconnectCls, 1, none⟩, rfl, rfl,
                by decide, Or.inl rfl, rfl, rfl, hs⟩)
          · exact Or.inr (Or.inl ⟨⟨JobClass.disconnectCls, 2, w0⟩, rfl, rfl,
              (show (2:Nat) ≤ 5 by decide), hw, rfl, rfl, hs⟩)
          · exact Or.inr (Or.inl ⟨⟨JobClass.disconnectCls, 3, w0⟩, rfl, rfl,
              (show (3:Nat) ≤ 5 by decide), hw, rfl, rfl, hs⟩)
          · exact Or.inr (Or.inl ⟨⟨JobClass.disconnectCls, 4, w0⟩, rfl, rfl,
              (show (4:Nat) ≤ 5 by decide), hw, rfl, rfl, hs⟩)
          · exact Or.inr (Or.inl ⟨⟨JobClass.disconnectCls, 5, w0⟩, rfl, rfl,
              (show (5:Nat) ≤ 5 by decide), hw, rfl, rfl, hs⟩)
          · exact Or.inr (Or.inl ⟨⟨JobClass.disconnectCls, p + 5, w0⟩, rfl, rfl,
              hpc, hw, rfl, rfl, hs⟩)
        · exact Or.inr (Or.inl ⟨⟨JobClass.disconnectCls, p0, w0⟩, rfl, rfl, hpc, hw,
            rfl, rfl, hs⟩)
      · obtain ⟨c0, p0, w0⟩ := j0
        replace hcls : c0 = JobClass.connectCls := hcls
        replace hpc : p0 ≤ 5 := hpc
        replace hw : w0 = none ∨ w0 = some none := hw
        subst hj hc hd hcls hs
        rcases i with _ | i
        · rcases p0 with _ | _ | _ | _ | _ | p
          · rcases hw with rfl | rfl
            · exact Or.inr (Or.inr (Or.inl ⟨⟨JobClass.connectCls, 0, some none⟩,
                rfl, rfl, by decide, Or.inr rfl, rfl, rfl, rfl⟩))
            · exact Or.inr (Or.inr (Or.inl ⟨⟨JobClass.connectCls, 1, none⟩,
                rfl, rfl, by decide, Or.inl rfl, rfl, rfl, rfl⟩))
          · exact Or.inr (Or.inr (Or.inl ⟨⟨JobClass.connectCls, 2, w0⟩,
              rfl, rfl, (show (2:Nat) ≤ 5 by decide), hw, rfl, rfl, rfl⟩))
          · exact Or.inr (Or.inr (Or.inl ⟨⟨JobClass.connectCls, 3, w0⟩,
              rfl, rfl, (show (3:Nat) ≤ 5 by decide), hw, rfl, rfl, rfl⟩))
          · exact Or.inr (Or.inr (Or.inl ⟨⟨JobClass.connectCls, 4, w0⟩,
              rfl, rfl, (show (4:Nat) ≤ 5 by decide), hw, rfl, rfl, rfl⟩))
          · exact Or.inr (Or.inr (Or.inl ⟨⟨JobClass.connectCls, 5, w0⟩,
              rfl, rfl, (show (5:Nat) ≤ 5 by decide), hw, rfl, rfl, rfl⟩))
          · exact Or.inr (Or.inr (Or.inl ⟨⟨JobClass.connectCls, p + 5, w0⟩,
              rfl, rfl, hpc, hw, rfl, rfl, rfl⟩))
        · exact Or.inr (Or.inr (Or.inl ⟨⟨JobClass.connectCls, p0, w0⟩, rfl, rfl,
            hpc, hw, rfl, rfl, rfl⟩))
      · obtain ⟨c0, p0, w0⟩ := j0
        obtain ⟨c1, p1, w1⟩ := j1
        replace hc0 : c0 = JobClass.disconnectCls := hc0
        replace hc1 : c1 = JobClass.connectCls := hc1
        replace hp0 : p0 ≤ 5 := hp0
        replace hp1 : p1 ≤ 5 := hp1
        replace hw0 : w0 = none ∨ w0 = some none ∨ w0 = some (some 1) := hw0
        replace hw1 : w1 = none ∨ w1 = some (some 0) := hw1
        replace hcr : p1 = 0 → discRef = some 0 := hcr
        replace hkey : 1 ≤ p1 → p0 = 5 := hkey
        subst hj hc0 hc1 hs
        rcases i with _ | _ | i
        · rcases p0 with _ | _ | _ | _ | _ | p
          · rcases hw0 with rfl | rfl | rfl
            · rcases hc with hc | hc <;> subst hc
              · exact Or.inr (Or.inr (Or.inr ⟨⟨JobClass.disconnectCls, 0, some (some 1)⟩,
                  ⟨JobClass.connectCls, p1, w1⟩, rfl, rfl, rfl, by decide, hp1,
                  rfl, Or.inl rfl, Or.inr (Or.inr rfl), hw1, hcr, hkey⟩))
              · exact Or.inr (Or.inr (Or.inr ⟨⟨JobClass.disconnectCls, 0, some none⟩,
                  ⟨JobClass.connectCls, p1, w1⟩, rfl, rfl, rfl, by decide, hp1,
                  rfl, Or.inr rfl, Or.inr (Or.inl rfl), hw1, hcr, hkey⟩))
            · exact Or.inr (Or.inr (Or.inr ⟨⟨JobClass.disconnectCls, 1, none⟩,
                ⟨JobClass.connectCls, p1, w1⟩, rfl, rfl, rfl, by decide, hp1,
                rfl, hc, Or.inl rfl, hw1, hcr,
                fun h1 => absurd (hkey h1) (by decide)⟩))
            · by_cases hdone : 5 ≤ p1
              · exact absurd (hkey (by omega)) (by decide)
              · have hjd : jobDoneAt [⟨JobClass.disconnectCls, 0, some (some 1)⟩,
                    ⟨JobClass.connectCls, p1, w1⟩] 1 = false := decide_eq_false hdone
                simp only [step, stepJob, List.get?, hjd, Bool.false_eq_true, if_false]
                exact Or.inr (Or.inr (Or.inr ⟨⟨JobClass.disconnectCls, 0, some (some 1)⟩,
                  ⟨JobClass.connectCls, p1, w1⟩, rfl, rfl, rfl, by decide, hp1,
                  rfl, hc, Or.inr (Or.inr rfl), hw1, hcr, hkey⟩))
          · exact Or.inr (Or.inr (Or.inr ⟨⟨JobClass.disconnectCls, 2, w0⟩,
              ⟨JobClass.connectCls, p1, w1⟩, rfl, rfl, rfl,
              (show (2:Nat) ≤ 5 by decide), hp1, rfl, Or.inr rfl, hw0, hw1, hcr,
              fun h1 => absurd (hkey h1) (by decide)⟩))
          · exact Or.inr (Or.inr (Or.inr ⟨⟨JobClass.disconnectCls, 3, w0⟩,
              ⟨JobClass.connectCls, p1, w1⟩, rfl, rfl, rfl,
              (show (3:Nat) ≤ 5 by decide), hp1, rfl, hc, hw0, hw1, hcr,
              fun h1 => absurd (hkey h1) (by decide)⟩))
          · exact Or.inr (Or.inr (Or.inr ⟨⟨JobClass.disconnectCls, 4, w0⟩,
              ⟨JobClass.connectCls, p1, w1⟩, rfl, rfl, rfl,
              (show (4:Nat) ≤ 5 by decide), hp1, rfl, hc, hw0, hw1, hcr,
              fun h1 => absurd (hkey h1) (by decide)⟩))
          · exact Or.inr (Or.inr (Or.inr ⟨⟨JobClass.disconnectCls, 5, w0⟩,
              ⟨JobClass.connectCls, p1, w1⟩, rfl, rfl, rfl,
              (show (5:Nat) ≤ 5 by decide), hp1, rfl, hc, hw0, hw1, hcr,
              fun _ => rfl⟩))
          · exact Or.inr (Or.inr (Or.inr ⟨⟨JobClass.disconnectCls, p + 5, w0⟩,
              ⟨JobClass.connectCls, p1, w1⟩, rfl, rfl, rfl, hp0, hp1,
              rfl, hc, hw0, hw1, hcr, hkey⟩))
        · rcases p1 with _ | _ | _ | _ | _ | p
          · rcases hw1 with rfl | rfl
            · rw [hcr rfl]
              exact Or.inr (Or.inr (Or.inr ⟨⟨JobClass.disconnectCls, p0, w0⟩,
                ⟨JobClass.connectCls, 0, some (some 0)⟩, rfl, rfl, rfl, hp0,
                by decide, rfl, hc, hw0, Or.inr rfl, fun _ => rfl,
                fun h1 => absurd h1 (by decide)⟩))
            · by_cases hdone : 5 ≤ p0
              · have hp05 : p0 = 5 := le_antisymm hp0 hdone
                subst hp05
                exact Or.inr (Or.inr (Or.inr ⟨⟨JobClass.disconnectCls, 5, w0⟩,
                  ⟨JobClass.connectCls, 1, none⟩, rfl, rfl, rfl,
                  (show (5:Nat) ≤ 5 by decide), by decide, rfl, hc, hw0, Or.inl rfl,
                  fun h1 => absurd h1 (by decide), fun _ => rfl⟩))
              · have hjd : jobDoneAt [⟨JobClass.disconnectCls, p0, w0⟩,
                    ⟨JobClass.connectCls, 0, some (some 0)⟩] 0 = false :=
                  decide_eq_false hdone
                simp only [step, stepJob, List.get?, hjd, Bool.false_eq_true, if_false]
                exact Or.inr (Or.inr (Or.inr ⟨⟨JobClass.disconnectCls, p0, w0⟩,
                  ⟨JobClass.connectCls, 0, some (some 0)⟩, rfl, rfl, rfl, hp0,
                  by decide, rfl, hc, hw0, Or.inr rfl, hcr,
                  fun h1 => absurd h1 (by decide)⟩))
          · exact Or.inr (Or.inr (Or.inr ⟨⟨JobClass.disconnectCls, p0, w0⟩,
              ⟨JobClass.connectCls, 2, w1⟩, rfl, rfl, rfl, hp0,
              (show (2:Nat) ≤ 5 by decide), rfl, hc, hw0, hw1,
              fun h1 => absurd (show (2:Nat) = 0 from h1) (by decide),
              fun _ => hkey (by decide)⟩))
          · exact Or.inr (Or.inr (Or.inr ⟨⟨JobClass.disconnectCls, p0, w0⟩,
              ⟨JobClass.connectCls, 3, w1⟩, rfl, rfl, rfl, hp0,
              (show (3:Nat) ≤ 5 by decide), rfl, hc, hw0, hw1,
              fun h1 => absurd (show (3:Nat) = 0 from h1) (by decide),
              fun _ => hkey (by decide)⟩))
          · exact Or.inr (Or.inr (Or.inr ⟨⟨JobClass.disconnectCls, p0, w0⟩,
              ⟨JobClass.connectCls, 4, w1⟩, rfl, rfl, rfl, hp0,
              (show (4:Nat) ≤ 5 by decide), rfl, hc, hw0, hw1,
              fun h1 => absurd (show (4:Nat) = 0 from h1) (by decide),
              fun _ => hkey (by decide)⟩))
          · exact Or.inr (Or.inr (Or.inr ⟨⟨JobClass.disconnectCls, p0, w0⟩,
              ⟨JobClass.connectCls, 5, w1⟩, rfl, rfl, rfl, hp0,
              (show (5:Nat) ≤ 5 by decide), rfl, hc, hw0, hw1,
              fun h1 => absurd (show (5:Nat) = 0 from h1) (by decide),
              fun _ => hkey (by decide)⟩))
          · exact Or.inr (Or.inr (Or.inr ⟨⟨JobClass.disconnectCls, p0, w0⟩,
              ⟨JobClass.connectCls, p + 5, w1⟩, rfl, rfl, rfl, hp0, hp1,
              rfl, hc, hw0, hw1, hcr, hkey⟩))
        · exact Or.inr (Or.inr (Or.inr ⟨⟨JobClass.disconnectCls, p0, w0⟩,
            ⟨JobClass.connectCls, p1, w1⟩, rfl, rfl, rfl, hp0, hp1, rfl, hc,
            hw0, hw1, hcr, hkey⟩))

/-- Invariant `InvB` holds along every schedule of the disconnect-then-connect
script. -/
theorem invB_run (cs : List Choice) :
    InvB (run [MainOp.disconnectOp, MainOp.connectOp] cs) := by
  suffices h : ∀ s : Sys, InvB s → InvB (cs.foldl step s) from
    h _ (Or.inl ⟨rfl, rfl, rfl, Or.inl rfl⟩)
  induction cs with
  | nil => exact fun s hs => hs
  | cons c cs ih => exact fun s hs => ih _ (invB_step s c hs)

/-- Main-thread script with three overlapping operations: connect, then
disconnect, then connect again. -/
def clobberScript : List MainOp :=
  [MainOp.connectOp, MainOp.disconnectOp, MainOp.connectOp]

/-- Schedule in which the first connect coroutine executes
`disconnectionJob = null` (line 389) after the disconnect has already been
issued and stored in `disconnectionJob`, so the second connect reads a null
handle, skips its join, and proceeds while the disconnect coroutine is
still inside `stopVpn`. -/
def clobberSchedule : List Choice :=
  [.mainStep, .jobStep 0, .jobStep 0, .mainStep, .jobStep 0, .jobStep 0,
   .jobStep 0, .jobStep 0, .jobStep 1, .jobStep 1, .jobStep 1, .jobStep 1,
   .mainStep, .jobStep 2, .jobStep 2, .jobStep 2, .jobStep 2, .jobStep 2]

/-- Schedule for an isolated connect-then-disconnect pair: the connect
coroutine runs to completion, the disconnect is issued while it is pending,
and the disconnect coroutine then joins and enters `stopVpn`. -/
def pairScheduleA : List Choice :=
  [.mainStep, .jobStep 0, .jobStep 0, .jobStep 0, .jobStep 0, .jobStep 0,
   .jobStep 0, .mainStep, .jobStep 1, .jobStep 1, .jobStep 1, .jobStep 1]

/-- Schedule for an isolated disconnect-then-connect pair: the environment
reports `CONNECTED`, a disconnect runs to completion, and a connect issued
while it was pending joins it and proceeds into its own body. -/
def pairScheduleB : List Choice :=
  [.envStep .CONNECTED, .mainStep, .jobStep 0, .jobStep 0, .jobStep 0,
   .jobStep 0, .jobStep 0, .jobStep 0, .mainStep, .jobStep 1, .jobStep 1,
   .jobStep 1, .jobStep 1]

/-- C1, counterexample. The claim asserts that for every pair of
overlapping operations the join rule sequences them and that there is
never a moment with one protocol instance mid-start while another is
mid-stop. Under the schedule `clobberSchedule` for the script
connect-disconnect-connect, the first connect coroutine nulls
`disconnectionJob` (line 389) after the disconnect was issued; the second
connect therefore skips its join and is inside `startVpn` (job 2, pc 4)
while the disconnect coroutine is still inside `stopVpn` (job 1, pc 3). -/
theorem join_rule_clobber_counterexample :
    (run clobberScript clobberSchedule).jobs =
      [⟨JobClass.connectCls, 5, none⟩, ⟨JobClass.disconnectCls, 3, none⟩,
       ⟨JobClass.connectCls, 4, none⟩] ∧
    midStop ⟨JobClass.disconnectCls, 3, none⟩ = true ∧
    midStart ⟨JobClass.connectCls, 4, none⟩ = true :=
  ⟨by decide, by decide, by decide⟩

/-- C1, amended: for an isolated overlapping pair — exactly one connect
and one disconnect operation, in either order, with no third operation —
the join-before-proceed rule does sequence them: once the second coroutine
has passed its join (pc at least 1, hence in particular when it invokes
`stopVpn` resp. `getProtocol`/`startVpn`), the first coroutine has
returned (pc 5), and the pair is never simultaneously mid-start and
mid-stop. -/
theorem isolated_pair_join_sequencing :
    (∀ cs j0 j1,
      (run [MainOp.connectOp, MainOp.disconnectOp] cs).jobs = [j0, j1] →
      (1 ≤ j1.pc → j0.pc = 5) ∧ ¬(midStart j0 = true ∧ midStop j1 = true)) ∧
    (∀ cs j0 j1,
      (run [MainOp.disconnectOp, MainOp.connectOp] cs).jobs = [j0, j1] →
      (1 ≤ j1.pc → j0.pc = 5) ∧ ¬(midStop j0 = true ∧ midStart j1 = true)) := by
  constructor
  · intro cs j0 j1 hjobs
    rcases invA_run cs with ⟨hj, -⟩ | ⟨j, hj, -⟩ | ⟨j, hj, -⟩ |
      ⟨a, b, hj, -, -, -, -, -, -, -, -, -, hkey⟩
    · rw [hjobs] at hj
      exact absurd hj (by simp)
    · rw [hjobs] at hj
      exact absurd hj (by simp)
    · rw [hjobs] at hj
      exact absurd hj (by simp)
    · rw [hjobs] at hj
      obtain ⟨rfl, rfl⟩ : j0 = a ∧ j1 = b := by
        have h0 := congrArg (fun l => l.get? 0) hj
        have h1 := congrArg (fun l => l.get? 1) hj
        simp at h0 h1
        exact ⟨h0, h1⟩
      refine ⟨hkey, ?_⟩
      rintro ⟨hms, hmsp⟩
      simp only [midStart, midStop, decide_eq_true_eq] at hms hmsp
      have h5 := hkey (by omega)
      omega
  · intro cs j0 j1 hjobs
    rcases invB_run cs with ⟨hj, -⟩ | ⟨j, hj, -⟩ | ⟨j, hj, -⟩ |
      ⟨a, b, hj, -, -, -, -, -, -, -, -, -, hkey⟩
    · rw [hjobs] at hj
      exact absurd hj (by simp)
    · rw [hjobs] at hj
      exact absurd hj (by simp)
    · rw [hjobs] at hj
      exact absurd hj (by simp)
    · rw [hjobs] at hj
      obtain ⟨rfl, rfl⟩ : j0 = a ∧ j1 = b := by
        have h0 := congrArg (fun l => l.get? 0) hj
        have h1 := congrArg (fun l => l.get? 1) hj
        simp at h0 h1
        exact ⟨h0, h1⟩
      refine ⟨hkey, ?_⟩
      rintro ⟨hms, hmsp⟩
      simp only [midStart, midStop, decide_eq_true_eq] at hms hmsp
      have h5 := hkey (by omega)
      omega

/-- Witness for `isolated_pair_join_sequencing`: concrete schedules for
both pair orders in which the second coroutine has passed its join (pc 3)
and the theorem yields that the first coroutine has returned (pc 5). -/
theorem isolated_pair_join_sequencing_witness :
    (run [MainOp.connectOp, MainOp.disconnectOp] pairScheduleA).jobs =
      [⟨JobClass.connectCls, 5, none⟩, ⟨JobClass.disconnectCls, 3, none⟩] ∧
    (⟨JobClass.connectCls, 5, none⟩ : JobState).pc = 5 ∧
    (run [MainOp.disconnectOp, MainOp.connectOp] pairScheduleB).jobs =
      [⟨JobClass.disconnectCls, 5, none⟩, ⟨JobClass.connectCls, 3, none⟩] ∧
    (⟨JobClass.disconnectCls, 5, none⟩ : JobState).pc = 5 :=
  ⟨by decide,
   (isolated_pair_join_sequencing.1 pairScheduleA
      ⟨JobClass.connectCls, 5, none⟩ ⟨JobClass.disconnectCls, 3, none⟩
      (by decide)).1 (by decide),
   by decide,
   (isolated_pair_join_sequencing.2 pairScheduleB
      ⟨JobClass.disconnectCls, 5, none⟩ ⟨JobClass.connectCls, 3, none⟩
      (by decide)).1 (by decide)⟩

/-! ### Claim theorems on the service pipeline -/

/-- Recognizer for protocol `stopVpn` invocations. -/
def isStopEvent : Event → Bool
  | .stopVpn _ => true
  | _ => false

/-- Recognizer for the armed forced-kill timer of `stopService`. -/
def isKillTimerEvent : Event → Bool
  | .armKillTimer => true
  | _ => false

/-- A connected service with one registered client, used as a concrete
evaluation point. -/
def demoConnected : ServiceState :=
  ⟨.CONNECTED, some "wireguard", ["wireguard"], some "srv", 0, some "srv", 0,
   ["A"], false⟩

/-- A disconnected service with previously persisted descriptive fields. -/
def priorState : ServiceState :=
  ⟨.DISCONNECTED, none, [], some "Old Server", 3, some "Old Server", 3,
   ["A"], false⟩

/-- C2: calling `connectToVpn` while the state is `CONNECTED` or
`CONNECTING` is a no-op with respect to the connection: the service state
is unchanged (so no state change reaches the broadcast collector) and no
event at all is emitted — in particular no protocol `startVpn` invocation
and no additional `STATUS_CHANGED` broadcast. -/
theorem connect_noop_when_connected_or_connecting (s : ServiceState)
    (raw : RawConfig) (perm : Bool)
    (h : s.protocolState = ProtocolState.CONNECTED ∨
      s.protocolState = ProtocolState.CONNECTING) :
    connectToVpn s raw perm = (s, []) := by
  unfold connectToVpn
  rw [if_pos h]

/-- Witness for `connect_noop_when_connected_or_connecting` at a concrete
connected service. -/
theorem connect_noop_when_connected_or_connecting_witness :
    (demoConnected.protocolState = ProtocolState.CONNECTED ∨
      demoConnected.protocolState = ProtocolState.CONNECTING) ∧
    connectToVpn demoConnected
      (RawConfig.wellFormed ⟨"wireguard", none, none⟩) true =
      (demoConnected, []) :=
  ⟨Or.inl rfl,
   connect_noop_when_connected_or_connecting demoConnected
     (RawConfig.wellFormed ⟨"wireguard", none, none⟩) true (Or.inl rfl)⟩

/-- C3: a disconnect from an active state holding a protocol instance,
whose stop does not bring the state to `DISCONNECTED` within
`DISCONNECT_TIMEOUT`: `stopVpn` is invoked exactly once (the stop call is
not retried) and the lifecycle escalation is triggered exactly once (one
`stopService` call arming the forced-kill timer once). -/
theorem disconnect_timeout_single_escalation (s : ServiceState) (p : String)
    (hp : s.protocol = some p)
    (h : ¬(s.protocolState = ProtocolState.UNKNOWN ∨
      s.protocolState = ProtocolState.DISCONNECTED ∨
      s.protocolState = ProtocolState.DISCONNECTING)) :
    ((disconnect s false).2.filter isStopEvent).length = 1 ∧
    ((disconnect s false).2.filter isKillTimerEvent).length = 1 := by
  have hd : s.protocolState ≠ ProtocolState.DISCONNECTING :=
    fun hh => h (Or.inr (Or.inr hh))
  unfold disconnect
  rw [if_neg h]
  simp [setProtocolState, hd, hp, stopServiceEffects, isStopEvent, isKillTimerEvent]

/-- Witness for `disconnect_timeout_single_escalation` at the concrete
connected service. -/
theorem disconnect_timeout_single_escalation_witness :
    demoConnected.protocol = some "wireguard" ∧
    ((disconnect demoConnected false).2.filter isStopEvent).length = 1 ∧
    ((disconnect demoConnected false).2.filter isKillTimerEvent).length = 1 :=
  ⟨rfl, disconnect_timeout_single_escalation demoConnected "wireguard" rfl (by decide)⟩

/-- C5 (amended): `connectionExceptionHandler` always forces the state to
`DISCONNECTED` and clears the active protocol; every classified exception
kind results in exactly one ERROR broadcast and is not rethrown; an
uncategorized failure is rethrown (propagates, not swallowed) but
broadcasts no ERROR at all. -/
theorem exception_handler_classification (s : ServiceState) (e : VpnError) :
    (connectionExceptionHandler s e).1.protocolState = ProtocolState.DISCONNECTED ∧
    (connectionExceptionHandler s e).1.protocol = none ∧
    countErrors (connectionExceptionHandler s e).2.1 =
      (if isClassified e then 1 else 0) ∧
    (connectionExceptionHandler s e).2.2 = !(isClassified e) := by
  by_cases hs : s.protocolState = ProtocolState.DISCONNECTED <;>
    cases e <;>
      simp [connectionExceptionHandler, setProtocolState, onError, countErrors,
        isErrorEvent, isClassified, hs]

/-- C5, counterexample: on an uncategorized failure the handler rethrows
with zero ERROR broadcasts, contradicting the claim that a best-effort
ERROR broadcast is delivered before the failure propagates. -/
theorem uncategorized_failure_no_broadcast :
    countErrors (connectionExceptionHandler demoConnected VpnError.uncategorized).2.1 = 0 ∧
    (connectionExceptionHandler demoConnected VpnError.uncategorized).2.2 = true ∧
    (connectionExceptionHandler demoConnected
      VpnError.uncategorized).1.protocolState = ProtocolState.DISCONNECTED := by
  decide

/-- C7, counterexample: registering the foreground-observer client while
`CONNECTED` leaves `statisticsSendingJob` untouched — no
`STATISTICS_UPDATE` sending loop starts running, because the body of
`launchSendingStatistics` is commented out — contradicting the claim that
periodic statistics delivery is immediately armed. -/
theorem statistics_loop_not_started :
    (registerClient demoConnected activityMessengerName).1.statisticsRunning = false ∧
    (registerClient demoConnected activityMessengerName).2 = [Event.armStatistics] := by
  decide

/-- C7 (amended): a register request with the foreground-observer name
while the state is `CONNECTED` registers the client and invokes the
statistics hook `launchSendingStatistics`, but the hook's body is disabled
in the source, so no sending loop starts: `statisticsRunning` is unchanged. -/
theorem register_activity_invokes_disabled_statistics_hook (s : ServiceState)
    (h : s.protocolState = ProtocolState.CONNECTED) :
    (registerClient s activityMessengerName).1.clients =
      s.clients ++ [activityMessengerName] ∧
    (registerClient s activityMessengerName).2 = [Event.armStatistics] ∧
    (registerClient s activityMessengerName).1.statisticsRunning =
      s.statisticsRunning := by
  simp [registerClient, launchSendingStatistics, h]

/-- Witness for `register_activity_invokes_disabled_statistics_hook`. -/
theorem register_activity_invokes_disabled_statistics_hook_witness :
    demoConnected.protocolState = ProtocolState.CONNECTED ∧
    (registerClient demoConnected activityMessengerName).2 = [Event.armStatistics] :=
  ⟨rfl, (register_activity_invokes_disabled_statistics_hook demoConnected rfl).2.1⟩

/-- C8: the connectivity-change callback (installed as `::reconnect` at
line 214) acts iff the state is `CONNECTED`: in any other state it changes
nothing and emits no event; when `CONNECTED` with an active protocol
instance it sets the state to `RECONNECTING` and invokes that same
instance's reconnect capability, with no registry resolution and no new
start. -/
theorem network_change_reconnect_iff_connected (s : ServiceState) (p : String) :
    (s.protocolState ≠ ProtocolState.CONNECTED → onNetworkChange s = (s, [])) ∧
    (s.protocolState = ProtocolState.CONNECTED → s.protocol = some p →
      (onNetworkChange s).1.protocolState = ProtocolState.RECONNECTING ∧
      (onNetworkChange s).1.protocol = some p ∧
      (onNetworkChange s).2 =
        [Event.stateChanged ProtocolState.RECONNECTING s.clients,
         Event.reconnectVpn p] ∧
      (onNetworkChange s).2.filter isResolveEvent = [] ∧
      (onNetworkChange s).2.filter isStartEvent = []) := by
  constructor
  · intro h
    simp [onNetworkChange, reconnect, h]
  · intro h hp
    simp [onNetworkChange, reconnect, setProtocolState, h, hp, isResolveEvent,
      isStartEvent]

/-- Witness for `network_change_reconnect_iff_connected`: a notification
in `DISCONNECTED` does nothing; a notification in `CONNECTED` moves the
state to `RECONNECTING`. -/
theorem network_change_reconnect_iff_connected_witness :
    onNetworkChange priorState = (priorState, []) ∧
    (onNetworkChange demoConnected).1.protocolState = ProtocolState.RECONNECTING :=
  ⟨(network_change_reconnect_iff_connected priorState "wireguard").1 (by decide),
   ((network_change_reconnect_iff_connected demoConnected "wireguard").2
     rfl rfl).1⟩

/-- Resolution via `getProtocol` never touches the persisted descriptive fields: on
success the returned state differs from the input at most in the protocol
cache. -/
theorem getProtocol_ok_frame (s : ServiceState) (n : String) (s1 : ServiceState)
    (p : String) (h : getProtocol s n = Except.ok (s1, p)) :
    s1.prefsServerName = s.prefsServerName ∧
    s1.prefsServerIndex = s.prefsServerIndex := by
  unfold getProtocol at h
  split at h
  · obtain ⟨h1, h2⟩ : s = s1 ∧ n = p := by simpa using h
    subst h1
    exact ⟨rfl, rfl⟩
  · split at h
    · obtain ⟨h1, h2⟩ : { s with protocolCache := n :: s.protocolCache } = s1 ∧ n = p := by
        simpa using h
      subst h1
      exact ⟨rfl, rfl⟩
    · simp at h

/-- The connection coroutine body never touches the persisted descriptive
fields, whether the protocol resolves or the handler recovers a failure. -/
theorem runConnectionJob_prefs (s : ServiceState) (c : VpnConfig) :
    (runConnectionJob s c).1.prefsServerName = s.prefsServerName ∧
    (runConnectionJob s c).1.prefsServerIndex = s.prefsServerIndex := by
  unfold runConnectionJob
  split
  · rename_i s1 p1 heq
    exact getProtocol_ok_frame s c.protocolName s1 p1 heq
  · rename_i msg heq
    simp only [connectionExceptionHandler, setProtocolState]
    split <;> exact ⟨rfl, rfl⟩

/-- C4: a connect whose well-formed config names a protocol outside the
supported set (and hence, the cache holding only constructed instances,
outside the cache): `getProtocol` throws `IllegalArgumentException`, the
connection scope's handler classifies it rather than crashing, exactly one
ERROR event carrying the not-found message is broadcast to all registered
clients, no `startVpn` occurs, and the final state is `DISCONNECTED`. -/
theorem unsupported_protocol_single_error (s : ServiceState) (c : VpnConfig)
    (hguard : ¬(s.protocolState = ProtocolState.CONNECTED ∨
      s.protocolState = ProtocolState.CONNECTING))
    (hname : c.protocolName ∉ supportedProtocols)
    (hcache : c.protocolName ∉ s.protocolCache) :
    (connectToVpn s (RawConfig.wellFormed c) true).1.protocolState =
      ProtocolState.DISCONNECTED ∧
    countErrors (connectToVpn s (RawConfig.wellFormed c) true).2 = 1 ∧
    (connectToVpn s (RawConfig.wellFormed c) true).2.filter isStartEvent = [] ∧
    Event.errorBroadcast ("Protocol '" ++ c.protocolName ++ "' not found")
      s.clients ∈ (connectToVpn s (RawConfig.wellFormed c) true).2 := by
  have hc : s.protocolState ≠ ProtocolState.CONNECTING :=
    fun hh => hguard (Or.inr hh)
  have hconn : s.protocolState ≠ ProtocolState.CONNECTED :=
    fun hh => hguard (Or.inl hh)
  simp [connectToVpn, parseConfigToJson, saveServerData, runConnectionJob,
    getProtocol, connectionExceptionHandler, setProtocolState, onError,
    countErrors, isErrorEvent, isStartEvent, hguard, hname, hcache, hc, hconn]

/-- Witness for `unsupported_protocol_single_error` at the config
`{protocol: "unknown"}` from a disconnected service. -/
theorem unsupported_protocol_single_error_witness :
    (connectToVpn priorState (RawConfig.wellFormed ⟨"unknown", none, none⟩)
      true).1.protocolState = ProtocolState.DISCONNECTED ∧
    countErrors (connectToVpn priorState
      (RawConfig.wellFormed ⟨"unknown", none, none⟩) true).2 = 1 :=
  ⟨(unsupported_protocol_single_error priorState ⟨"unknown", none, none⟩
      (by decide) (by decide) (by decide)).1,
   (unsupported_protocol_single_error priorState ⟨"unknown", none, none⟩
      (by decide) (by decide) (by decide)).2.1⟩

/-- Pure projection of the parse result of a raw config. -/
def configOf : RawConfig → Option VpnConfig
  | .wellFormed c => some c
  | _ => none

/-- C6 (amended): the persisted descriptive fields are written on every
connect attempt that passes the idempotence guard — with the parsed values
when the parse succeeds, and overwritten with a null name and index -1
when the parse fails — not only on successful parses. -/
theorem server_data_written_on_every_guarded_connect (s : ServiceState)
    (raw : RawConfig) (perm : Bool)
    (hguard : ¬(s.protocolState = ProtocolState.CONNECTED ∨
      s.protocolState = ProtocolState.CONNECTING)) :
    (connectToVpn s raw perm).1.prefsServerName =
      (configOf raw).bind (fun c => c.description) ∧
    (connectToVpn s raw perm).1.prefsServerIndex =
      ((configOf raw).bind (fun c => c.serverIndex)).getD (-1) := by
  have hc : s.protocolState ≠ ProtocolState.CONNECTING :=
    fun hh => hguard (Or.inr hh)
  unfold connectToVpn
  rw [if_neg hguard]
  cases raw with
  | blank =>
      simp [parseConfigToJson, saveServerData, setProtocolState, onError,
        configOf, hc]
  | malformed =>
      simp [parseConfigToJson, saveServerData, setProtocolState, onError,
        configOf, hc]
  | wellFormed c =>
      cases perm with
      | false =>
          simp [parseConfigToJson, saveServerData, setProtocolState, configOf, hc]
      | true =>
          have hj := runConnectionJob_prefs
            (saveServerData (setProtocolState s ProtocolState.CONNECTING).1 (some c)) c
          simp [parseConfigToJson, saveServerData, setProtocolState, configOf,
            hc] at hj ⊢
          exact hj

/-- Witness for `server_data_written_on_every_guarded_connect` at a
well-formed config carrying a description and an index. -/
theorem server_data_written_on_every_guarded_connect_witness :
    (connectToVpn priorState
      (RawConfig.wellFormed ⟨"wireguard", some "New", some 7⟩) true).1.prefsServerName =
      some "New" ∧
    (connectToVpn priorState
      (RawConfig.wellFormed ⟨"wireguard", some "New", some 7⟩) true).1.prefsServerIndex = 7 :=
  server_data_written_on_every_guarded_connect priorState
    (RawConfig.wellFormed ⟨"wireguard", some "New", some 7⟩) true (by decide)

/-- C6, counterexample: a connect whose config is blank (parse failure)
from a state with previously persisted descriptive fields: the persisted
name and index are overwritten with null and -1 (because line 375 calls
`saveServerData(config)` before the null check of line 376), contradicting
the claim that a failed parse leaves them unchanged. -/
theorem failed_parse_overwrites_persisted_fields :
    priorState.prefsServerName = some "Old Server" ∧
    priorState.prefsServerIndex = 3 ∧
    (connectToVpn priorState RawConfig.blank true).1.prefsServerName = none ∧
    (connectToVpn priorState RawConfig.blank true).1.prefsServerIndex = -1 := by
  decide

/-- C9, counterexample: along the legal state sequence UNKNOWN →
CONNECTING → CONNECTED → RECONNECTING the collector binds the listener on
`CONNECTED` and the `RECONNECTING` arm (lines 317-319) does not unbind it,
so a reachable configuration has the listener bound in a state other than
`CONNECTED`, contradicting the claim that it is unbound in every state but
`CONNECTED`. -/
theorem listener_bound_while_reconnecting :
    ListenerReachable ProtocolState.RECONNECTING true ∧
    ProtocolState.RECONNECTING ≠ ProtocolState.CONNECTED := by
  refine ⟨?_, by decide⟩
  have h1 : ListenerReachable ProtocolState.CONNECTING false :=
    ListenerReachable.step ListenerReachable.init rfl
  have h2 : ListenerReachable ProtocolState.CONNECTED true :=
    ListenerReachable.step h1 rfl
  exact ListenerReachable.step h2 rfl

/-- C9 (amended): in every configuration reachable by the state collector
along spec-legal transitions, the connectivity listener is bound only
while the state is `CONNECTED` or `RECONNECTING` (it stays bound through a
reconnect entered from `CONNECTED`); equivalently it is unbound in
`UNKNOWN`, `CONNECTING`, `DISCONNECTING` and `DISCONNECTED`. -/
theorem listener_bound_only_connected_or_reconnecting (s : ProtocolState)
    (b : Bool) (h : ListenerReachable s b) :
    b = true → s = ProtocolState.CONNECTED ∨ s = ProtocolState.RECONNECTING := by
  induction h with
  | init => exact fun hb => absurd hb (by decide)
  | step hr htr ih =>
      rename_i s0 b0 s1
      intro hb
      cases s1 with
      | CONNECTED => exact Or.inl rfl
      | RECONNECTING => exact Or.inr rfl
      | DISCONNECTED => exact absurd (show false = true from hb) (by decide)
      | DISCONNECTING => exact absurd (show false = true from hb) (by decide)
      | UNKNOWN =>
          rcases ih hb with rfl | rfl <;> exact absurd htr (by decide)
      | CONNECTING =>
          rcases ih hb with rfl | rfl <;> exact absurd htr (by decide)

/-- Witness for `listener_bound_only_connected_or_reconnecting` at the
reachable bound configuration in `CONNECTED`. -/
theorem listener_bound_only_connected_or_reconnecting_witness :
    ListenerReachable ProtocolState.CONNECTED true ∧
    (ProtocolState.CONNECTED = ProtocolState.CONNECTED ∨
      ProtocolState.CONNECTED = ProtocolState.RECONNECTING) := by
  have h1 : ListenerReachable ProtocolState.CONNECTING false :=
    ListenerReachable.step ListenerReachable.init rfl
  have h2 : ListenerReachable ProtocolState.CONNECTED true :=
    ListenerReachable.step h1 rfl
  exact ⟨h2,
    listener_bound_only_connected_or_reconnecting ProtocolState.CONNECTED true h2 rfl⟩

/-- C10: a connect whose config parses but whose VPN-permission check
fails: the state is set to `DISCONNECTED`, the permission-request activity
is started, and the operation performs no registry resolution, no
`startVpn`, and broadcasts no ERROR event (the failure is silent to
registered clients). -/
theorem permission_denied_silent_disconnect (s : ServiceState) (c : VpnConfig)
    (hguard : ¬(s.protocolState = ProtocolState.CONNECTED ∨
      s.protocolState = ProtocolState.CONNECTING)) :
    (connectToVpn s (RawConfig.wellFormed c) false).1.protocolState =
      ProtocolState.DISCONNECTED ∧
    countErrors (connectToVpn s (RawConfig.wellFormed c) false).2 = 0 ∧
    (connectToVpn s (RawConfig.wellFormed c) false).2.filter isResolveEvent = [] ∧
    (connectToVpn s (RawConfig.wellFormed c) false).2.filter isStartEvent = [] ∧
    Event.startPermissionActivity ∈
      (connectToVpn s (RawConfig.wellFormed c) false).2 := by
  have hc : s.protocolState ≠ ProtocolState.CONNECTING :=
    fun hh => hguard (Or.inr hh)
  have hconn : s.protocolState ≠ ProtocolState.CONNECTED :=
    fun hh => hguard (Or.inl hh)
  simp [connectToVpn, parseConfigToJson, saveServerData, setProtocolState,
    countErrors, isErrorEvent, isResolveEvent, isStartEvent, hguard, hc, hconn]

/-- Witness for `permission_denied_silent_disconnect` at the disconnected
service and a wireguard config. -/
theorem permission_denied_silent_disconnect_witness :
    (connectToVpn priorState
      (RawConfig.wellFormed ⟨"wireguard", none, none⟩) false).1.protocolState =
      ProtocolState.DISCONNECTED ∧
    countErrors (connectToVpn priorState
      (RawConfig.wellFormed ⟨"wireguard", none, none⟩) false).2 = 0 :=
  ⟨(permission_denied_silent_disconnect priorState ⟨"wireguard", none, none⟩
      (by decide)).1,
   (permission_denied_silent_disconnect priorState ⟨"wireguard", none, none⟩
      (by decide)).2.1⟩

end AmneziaVpn
